import Mathlib

/-! RoutingComponent: request path and periodic re-broadcast

Shallow embedding of `modules/routing/routing_component.cc`:

* `RoutingComponent.Proc`          : `RoutingComponent::Proc` (lines 83-100)
* `RoutingComponent.timerCallback` : the lambda handed to `cyber::Timer` in
  `RoutingComponent::Init` (lines 66-76)

The component state is the pair of members the two functions touch: the solver
object `routing_` and the cached shared pointer `response_` (null or pointing to
a response).  Every externally visible effect of a call (solver invocation,
`Write` on a writer, taking and releasing `mutex_`, reading the clock, storing
into `response_`) is recorded, in program order, in the list of `Action`s the
call returns.

Types the source only uses through an interface are parameters:
`Q` the request message, `R` the state of the solver object `routing_`,
`T` the values of `timestamp_sec` (a C++ `double` that the code only copies),
`H` the header fields other than the time stamp and the module name,
`B` the fields of the response outside its header.
-/

namespace RoutingComponent

/-- Header of a message: `timestamp_sec` is the field written by
`set_timestamp_sec`; `module_name` is the source identity; `others` stands for
every remaining header field. -/
structure Header (T H : Type) where
  timestamp_sec : T
  module_name : String
  others : H
deriving DecidableEq, Repr

/-- The message `routing::RoutingResponse`: a header and the remaining fields. -/
structure RoutingResponse (T H B : Type) where
  header : Header T H
  others : B
deriving DecidableEq, Repr

/-- Setter `msg->mutable_header()->set_timestamp_sec(t)`: overwrite the header time
stamp, every other field untouched. -/
def RoutingResponse.set_timestamp_sec {T H B : Type}
    (msg : RoutingResponse T H B) (t : T) : RoutingResponse T H B :=
  { msg with header := { msg.header with timestamp_sec := t } }

/-- The freshly constructed message of `std::make_shared<RoutingResponse>()`. -/
def RoutingResponse.fresh {T H B : Type} [Inhabited T] [Inhabited H] [Inhabited B] :
    RoutingResponse T H B :=
  { header := { timestamp_sec := default, module_name := "", others := default },
    others := default }

/-- Modelled from the spec: `common::util::FillHeader` is declared outside the
files at hand.  The spec says the request path "stamps a header (logical source
identity)" whose time stamp "is set at the moment of publish": the module name
becomes the node name and the time stamp becomes the clock reading `now`. -/
def FillHeader {T H B : Type} (module_name : String) (now : T)
    (msg : RoutingResponse T H B) : RoutingResponse T H B :=
  { msg with header := { msg.header with module_name := module_name, timestamp_sec := now } }

/-- The two writers created in `Init`: `response_writer_` (primary channel,
`routing_response_topic`) and `response_history_writer_` (keep-alive channel,
`routing_response_history_topic`). -/
inductive Channel where
  | response
  | history
deriving DecidableEq, Repr

/-- Effects of a call, in program order. -/
inductive Action (T H B : Type) where
  /-- Call `routing_.Process(request, response.get())` -/
  | solve
  /-- Reading `Clock::NowInSeconds()` (directly, or inside `FillHeader`) -/
  | clock (now : T)
  /-- Call `writer->Write(msg)` on a channel, with the value `Write` returned -/
  | write (ch : Channel) (msg : RoutingResponse T H B) (ok : Bool)
  /-- Construction of a `std::lock_guard` on `mutex_` -/
  | lock
  /-- Destruction of that `std::lock_guard` -/
  | unlock
  /-- Assignment `response_ = std::move(response)` -/
  | store (msg : RoutingResponse T H B)
  /-- Call `response_->mutable_header()->set_timestamp_sec(t)` on the cached message -/
  | restamp (t : T)
deriving DecidableEq, Repr

/-- The members of `RoutingComponent` used by `Proc` and the timer callback. -/
structure State (R T H B : Type) where
  routing_ : R
  response_ : Option (RoutingResponse T H B)
deriving DecidableEq, Repr

/-- What the component is given from outside: the node name (`node_->Name()`)
and the solver `routing_.Process`, which receives the solver object, the request
and the message to fill, and returns its verdict, the filled message and the
solver object afterwards. -/
structure Deps (Q R T H B : Type) where
  Name : String
  Process : R → Q → RoutingResponse T H B → Bool × RoutingResponse T H B × R

/-- Result of `Proc`: the returned `bool`, the state afterwards, the effects. -/
structure ProcResult (R T H B : Type) where
  ret : Bool
  state : State R T H B
  trace : List (Action T H B)

/-- Result of one firing of the timer callback (it returns `void`). -/
structure TickResult (R T H B : Type) where
  state : State R T H B
  trace : List (Action T H B)

section Code

variable {Q R T H B : Type} [Inhabited T] [Inhabited H] [Inhabited B]

/-- Member function `RoutingComponent::Proc`.  `now` is the clock reading taken inside
`FillHeader`, `writeOk` the value returned by `response_writer_->Write`. -/
def Proc (d : Deps Q R T H B) (request : Q) (now : T) (writeOk : Bool)
    (s : State R T H B) : ProcResult R T H B :=
  let response : RoutingResponse T H B := RoutingResponse.fresh
  match d.Process s.routing_ request response with
  | (false, _, routing) =>
      { ret := false
        state := { s with routing_ := routing }
        trace := [Action.solve] }
  | (true, response, routing) =>
      let response := FillHeader d.Name now response
      { ret := true
        state := { routing_ := routing, response_ := some response }
        trace := [Action.solve, Action.clock now,
                  Action.write Channel.response response writeOk,
                  Action.lock, Action.store response, Action.unlock] }

/-- The timer callback of `Init`.  `alive` is whether `self.lock()` yields a
non-null pointer, `now` the value of `Clock::NowInSeconds()`, `writeOk` the
value returned by `response_history_writer_->Write`. -/
def timerCallback (alive : Bool) (now : T) (writeOk : Bool)
    (s : State R T H B) : TickResult R T H B :=
  if alive then
    match s.response_ with
    | some response =>
        let response := response.set_timestamp_sec now
        { state := { s with response_ := some response }
          trace := [Action.lock, Action.clock now, Action.restamp now,
                    Action.write Channel.history response writeOk, Action.unlock] }
    | none =>
        { state := s, trace := [Action.lock, Action.unlock] }
  else
    { state := s, trace := [] }

end Code

/-! ## Observations on traces -/

section Observe

variable {T H B : Type}

/-- Messages handed to `Write` on channel `ch`, in order. -/
def writesOn (ch : Channel) : List (Action T H B) → List (RoutingResponse T H B)
  | [] => []
  | Action.write c msg _ :: rest => if c = ch then msg :: writesOn ch rest else writesOn ch rest
  | _ :: rest => writesOn ch rest

/-- Messages assigned to `response_`, in order. -/
def stores : List (Action T H B) → List (RoutingResponse T H B)
  | [] => []
  | Action.store msg :: rest => msg :: stores rest
  | _ :: rest => stores rest

/-- Whether the action is a call into the solver or a `Write` on a channel. -/
def Action.isCall : Action T H B → Bool
  | Action.solve => true
  | Action.write _ _ _ => true
  | _ => false

/-- Whether `mutex_` is held after the actions of `pre`, given it was held
(`held0`) or not before them. -/
def heldAfter (held0 : Bool) : List (Action T H B) → Bool
  | [] => held0
  | Action.lock :: rest => heldAfter true rest
  | Action.unlock :: rest => heldAfter false rest
  | _ :: rest => heldAfter held0 rest

/-- No solver call and no `Write` happens at a point of the trace where the
lock is held. -/
def NoCallUnderLock (trace : List (Action T H B)) : Prop :=
  ∀ pre a post, trace = pre ++ a :: post → a.isCall = true → heldAfter false pre = false

/-- Executable form of `NoCallUnderLock`, scanning the trace once. -/
def scanCalls (held0 : Bool) : List (Action T H B) → Bool
  | [] => true
  | Action.lock :: rest => scanCalls true rest
  | Action.unlock :: rest => scanCalls false rest
  | a :: rest => (!(a.isCall && held0)) && scanCalls held0 rest

/-- Whether the action writes the shared slot: the assignment to `response_`, or
the setter called on the message `response_` points to. -/
def Action.isSlotAccess : Action T H B → Bool
  | Action.store _ => true
  | Action.restamp _ => true
  | _ => false

/-- Every write to the shared slot happens at a point of the trace where the
lock is held. -/
def SlotAccessUnderLock (trace : List (Action T H B)) : Prop :=
  ∀ pre a post, trace = pre ++ a :: post → a.isSlotAccess = true → heldAfter false pre = true

/-- Executable form of `SlotAccessUnderLock`, scanning the trace once. -/
def scanAccess (held0 : Bool) : List (Action T H B) → Bool
  | [] => true
  | Action.lock :: rest => scanAccess true rest
  | Action.unlock :: rest => scanAccess false rest
  | a :: rest => (!a.isSlotAccess || held0) && scanAccess held0 rest

/-- The sections of the trace run under the lock, in order.  The first argument is
`none` outside a section and otherwise holds, last first, the actions done
since the lock was taken; a section still open at the end of the trace is
reported too. -/
def sectionsFrom : Option (List (Action T H B)) → List (Action T H B) → List (List (Action T H B))
  | none, [] => []
  | some done, [] => [done.reverse]
  | none, Action.lock :: rest => sectionsFrom (some []) rest
  | none, _ :: rest => sectionsFrom none rest
  | some done, Action.unlock :: rest => done.reverse :: sectionsFrom none rest
  | some done, a :: rest => sectionsFrom (some (a :: done)) rest

/-- For each time the lock is taken, the actions done until it is released. -/
def lockedSections (trace : List (Action T H B)) : List (List (Action T H B)) :=
  sectionsFrom none trace

end Observe

/-! ## Sequences of invocations -/

/-- One invocation of the component from outside, with what the environment
answers during it: a request delivered to `Proc`, or one firing of the timer. -/
inductive Call (Q T : Type) where
  | proc (request : Q) (now : T) (writeOk : Bool)
  | tick (alive : Bool) (now : T) (writeOk : Bool)
deriving DecidableEq, Repr

/-- The clock reading available during the invocation. -/
def Call.clock {Q T : Type} : Call Q T → T
  | Call.proc _ now _ => now
  | Call.tick _ now _ => now

section Run

variable {Q R T H B : Type} [Inhabited T] [Inhabited H] [Inhabited B]

/-- Carry out one invocation. -/
def step (d : Deps Q R T H B) (s : State R T H B) : Call Q T → TickResult R T H B
  | Call.proc request now writeOk =>
      { state := (Proc d request now writeOk s).state
        trace := (Proc d request now writeOk s).trace }
  | Call.tick alive now writeOk => timerCallback alive now writeOk s

/-- Carry out the invocations one after another, collecting the effects. -/
def run (d : Deps Q R T H B) : State R T H B → List (Call Q T) → TickResult R T H B
  | s, [] => { state := s, trace := [] }
  | s, c :: rest =>
      { state := (run d (step d s c).state rest).state
        trace := (step d s c).trace ++ (run d (step d s c).state rest).trace }

/-- The response produced by the most recent successful `Process` among the
invocations, as the spec words it: ticks are skipped, each request is solved
with the solver object as the earlier requests left it, a solved request
replaces `latest` by its header-stamped response, a rejected one keeps it. -/
def latestProcessed (d : Deps Q R T H B) :
    R → Option (RoutingResponse T H B) → List (Call Q T) → Option (RoutingResponse T H B)
  | _, latest, [] => latest
  | routing, latest, Call.tick _ _ _ :: rest => latestProcessed d routing latest rest
  | routing, latest, Call.proc request now _ :: rest =>
      match d.Process routing request RoutingResponse.fresh with
      | (true, response, routing) =>
          latestProcessed d routing (some (FillHeader d.Name now response)) rest
      | (false, _, routing) => latestProcessed d routing latest rest

end Run

/-! ## Calls in flight at the same time -/

section Concurrent

variable {Q R T H B : Type} [Inhabited T] [Inhabited H] [Inhabited B]

/-- The part of `Proc` that precedes the `lock_guard` block (lines 87-92): solve,
stamp the header, `Write` on the primary channel.  It works on the solver
object and on the response local to the call; it returns the solver object
afterwards, the response the call is about to store (none when the solver
refused) and the effects. -/
def procBeforeLock (d : Deps Q R T H B) (request : Q) (now : T) (writeOk : Bool)
    (routing : R) : R × Option (RoutingResponse T H B) × List (Action T H B) :=
  match d.Process routing request RoutingResponse.fresh with
  | (false, _, routing) => (routing, none, [Action.solve])
  | (true, response, routing) =>
      let response := FillHeader d.Name now response
      (routing, some response,
        [Action.solve, Action.clock now, Action.write Channel.response response writeOk])

/-- The `lock_guard` block of `Proc` (lines 93-98): under the lock, `response_`
is replaced by the response of the call. -/
def procLocked (response : RoutingResponse T H B) (s : State R T H B) : TickResult R T H B :=
  { state := { s with response_ := some response }
    trace := [Action.lock, Action.store response, Action.unlock] }

/-- The component together with the calls of `Proc` in flight: `waiting` holds the
responses of the calls that are past their `Write` and have not yet entered
the `lock_guard` block; `trace` collects the effects so far. -/
structure Config (R T H B : Type) where
  comp : State R T H B
  waiting : List (RoutingResponse T H B)
  trace : List (Action T H B)

/-- One move of a run in which calls overlap.  `mutex_` lets one `lock_guard`
block run at a time, so a block is one move: `commit i` is the block of the
waiting call number `i`, `tick` is the timer callback, whose whole body is
one block.  `enter` is the part of a call of `Proc` outside the lock; it
works on the response local to the call and on the solver object, which no
`lock_guard` block reads, so it is taken as one move as well. -/
inductive Move (Q T : Type) where
  | enter (request : Q) (now : T) (writeOk : Bool)
  | commit (i : Nat)
  | tick (alive : Bool) (now : T) (writeOk : Bool)
deriving DecidableEq, Repr

/-- Carry out one move. -/
def move (d : Deps Q R T H B) (c : Config R T H B) : Move Q T → Config R T H B
  | Move.enter request now writeOk =>
      match procBeforeLock d request now writeOk c.comp.routing_ with
      | (routing, pending, effects) =>
          { comp := { c.comp with routing_ := routing }
            waiting := c.waiting ++ pending.toList
            trace := c.trace ++ effects }
  | Move.commit i =>
      match c.waiting[i]? with
      | none => c
      | some response =>
          { comp := (procLocked response c.comp).state
            waiting := c.waiting.eraseIdx i
            trace := c.trace ++ (procLocked response c.comp).trace }
  | Move.tick alive now writeOk =>
      { comp := (timerCallback alive now writeOk c.comp).state
        waiting := c.waiting
        trace := c.trace ++ (timerCallback alive now writeOk c.comp).trace }

/-- Carry out the moves in the given order. -/
def interleave (d : Deps Q R T H B) (c : Config R T H B) (moves : List (Move Q T)) :
    Config R T H B :=
  moves.foldl (move d) c

/-- The moves of a call carried out alone: a call of `Proc` enters and, nothing
else being in flight, goes straight through its `lock_guard` block. -/
def Call.moves {Q T : Type} : Call Q T → List (Move Q T)
  | Call.proc request now writeOk => [Move.enter request now writeOk, Move.commit 0]
  | Call.tick alive now writeOk => [Move.tick alive now writeOk]

end Concurrent

/-! ## A concrete instance, used to evaluate the definitions -/

/-- A solver that rejects request `0`, otherwise writes the request number into
the body of the message, and counts its invocations. -/
def demoDeps : Deps Nat Nat Nat Unit Nat where
  Name := "routing"
  Process := fun calls request msg => (decide (request ≠ 0), { msg with others := request }, calls + 1)

/-- The component right after construction: nothing cached. -/
def demoInit : State Nat Nat Unit Nat :=
  { routing_ := 0, response_ := none }

/-- What the solver of `demoDeps` makes of request `7`: the fresh message with
body `7`. -/
def demoSolved : RoutingResponse Nat Unit Nat :=
  { header := { timestamp_sec := 0, module_name := "", others := () }, others := 7 }

/-- A component holding a response stamped at time `1`. -/
def demoArmed : State Nat Nat Unit Nat :=
  { routing_ := 1
    response_ := some { header := { timestamp_sec := 1, module_name := "routing", others := () },
                        others := 7 } }

/-! ## Lemmas on traces -/

section TraceLemmas

variable {T H B : Type}

theorem noCallUnderLock_of_scan_aux (trace : List (Action T H B)) :
    ∀ held0, scanCalls held0 trace = true →
      ∀ pre a post, trace = pre ++ a :: post → a.isCall = true → heldAfter held0 pre = false := by
  induction trace with
  | nil =>
      intro held0 _ pre a post h
      cases pre <;> simp at h
  | cons x rest ih =>
      intro held0 hs pre a post h hc
      cases pre with
      | nil =>
          simp only [List.nil_append, List.cons.injEq] at h
          obtain ⟨rfl, rfl⟩ := h
          cases x <;> simp_all [scanCalls, heldAfter, Action.isCall]
      | cons y pre =>
          simp only [List.cons_append, List.cons.injEq] at h
          obtain ⟨rfl, h⟩ := h
          cases x
          case lock => exact ih true (by simpa [scanCalls] using hs) pre a post h hc
          case unlock => exact ih false (by simpa [scanCalls] using hs) pre a post h hc
          all_goals
            simp only [scanCalls, Bool.and_eq_true] at hs
            simpa [heldAfter] using ih held0 hs.2 pre a post h hc

theorem noCallUnderLock_of_scan (trace : List (Action T H B))
    (h : scanCalls false trace = true) : NoCallUnderLock trace :=
  noCallUnderLock_of_scan_aux trace false h

theorem slotAccessUnderLock_of_scan_aux (trace : List (Action T H B)) :
    ∀ held0, scanAccess held0 trace = true →
      ∀ pre a post, trace = pre ++ a :: post → a.isSlotAccess = true →
        heldAfter held0 pre = true := by
  induction trace with
  | nil =>
      intro held0 _ pre a post h
      cases pre <;> simp at h
  | cons x rest ih =>
      intro held0 hs pre a post h hc
      cases pre with
      | nil =>
          simp only [List.nil_append, List.cons.injEq] at h
          obtain ⟨rfl, rfl⟩ := h
          cases x <;> simp_all [scanAccess, heldAfter, Action.isSlotAccess]
      | cons y pre =>
          simp only [List.cons_append, List.cons.injEq] at h
          obtain ⟨rfl, h⟩ := h
          cases x
          case lock => exact ih true (by simpa [scanAccess] using hs) pre a post h hc
          case unlock => exact ih false (by simpa [scanAccess] using hs) pre a post h hc
          all_goals
            simp only [scanAccess, Bool.and_eq_true] at hs
            simpa [heldAfter] using ih held0 hs.2 pre a post h hc

theorem slotAccessUnderLock_of_scan (trace : List (Action T H B))
    (h : scanAccess false trace = true) : SlotAccessUnderLock trace :=
  slotAccessUnderLock_of_scan_aux trace false h

end TraceLemmas

/-! ## The request path: `Proc` -/

section ProcTheorems

variable {Q R T H B : Type} [Inhabited T] [Inhabited H] [Inhabited B]

/-- Claim C1, as stated, fails: on request `7` the solver succeeds and the primary
`Write` reports failure, yet `Proc` returns `true`, performs one slot update
and the cached response is no longer what it was before the call. -/
theorem C1_publish_failure_counterexample :
    (demoDeps.Process demoInit.routing_ 7 RoutingResponse.fresh).1 = true ∧
    (Proc demoDeps 7 5 false demoInit).ret = true ∧
    (stores (Proc demoDeps 7 5 false demoInit).trace).length = 1 ∧
    (Proc demoDeps 7 5 false demoInit).state.response_ ≠ demoInit.response_ := by
  decide

/-- Claim C1, amended: when the solver succeeds and the primary-channel `Write`
reports failure, `Proc` still returns `true` and performs exactly one slot
update; the cached response afterwards is the header-stamped response that was
handed to the primary writer.  The value returned by `Write` is not examined. -/
theorem C1_publish_failure_still_caches (d : Deps Q R T H B) (request : Q) (now : T)
    (s : State R T H B) (response : RoutingResponse T H B) (routing : R)
    (hsolve : d.Process s.routing_ request RoutingResponse.fresh = (true, response, routing)) :
    (Proc d request now false s).ret = true ∧
    writesOn Channel.response (Proc d request now false s).trace
      = [FillHeader d.Name now response] ∧
    stores (Proc d request now false s).trace = [FillHeader d.Name now response] ∧
    (Proc d request now false s).state.response_ = some (FillHeader d.Name now response) := by
  simp [Proc, hsolve, writesOn, stores]

/-- Witness for `C1_publish_failure_still_caches` on request `7`. -/
theorem C1_publish_failure_still_caches_witness :
    (Proc demoDeps 7 5 false demoInit).ret = true ∧
    writesOn Channel.response (Proc demoDeps 7 5 false demoInit).trace
      = [FillHeader "routing" 5 demoSolved] ∧
    stores (Proc demoDeps 7 5 false demoInit).trace
      = [FillHeader "routing" 5 demoSolved] ∧
    (Proc demoDeps 7 5 false demoInit).state.response_
      = some (FillHeader "routing" 5 demoSolved) :=
  C1_publish_failure_still_caches demoDeps 7 5 demoInit demoSolved 1 rfl

/-- Claim C3: if the solver returns not-ok then, whatever the request and whatever
the slot held, `Proc` returns `false`, hands nothing to the primary writer nor
to the keep-alive writer, performs no slot update and leaves the cached
response exactly as it was. -/
theorem C3_solver_failure (d : Deps Q R T H B) (request : Q) (now : T) (writeOk : Bool)
    (s : State R T H B)
    (hfail : (d.Process s.routing_ request RoutingResponse.fresh).1 = false) :
    (Proc d request now writeOk s).ret = false ∧
    writesOn Channel.response (Proc d request now writeOk s).trace = [] ∧
    writesOn Channel.history (Proc d request now writeOk s).trace = [] ∧
    stores (Proc d request now writeOk s).trace = [] ∧
    (Proc d request now writeOk s).state.response_ = s.response_ := by
  rcases hp : d.Process s.routing_ request RoutingResponse.fresh with ⟨ok, response, routing⟩
  rw [hp] at hfail
  simp only at hfail
  subst hfail
  simp [Proc, hp, writesOn, stores]

/-- Witness for `C3_solver_failure`: request `0` is rejected while a response is
cached. -/
theorem C3_solver_failure_witness :
    (Proc demoDeps 0 5 true demoArmed).ret = false ∧
    writesOn Channel.response (Proc demoDeps 0 5 true demoArmed).trace = [] ∧
    writesOn Channel.history (Proc demoDeps 0 5 true demoArmed).trace = [] ∧
    stores (Proc demoDeps 0 5 true demoArmed).trace = [] ∧
    (Proc demoDeps 0 5 true demoArmed).state.response_ = demoArmed.response_ :=
  C3_solver_failure demoDeps 0 5 true demoArmed rfl

/-- Claim C4: when the solver and the primary `Write` both succeed, `Proc` returns
`true`, hands exactly one message to the primary writer and none to the
keep-alive writer, performs exactly one slot update, and the slot then holds
the very header-stamped response that was published. -/
theorem C4_success (d : Deps Q R T H B) (request : Q) (now : T) (s : State R T H B)
    (hsolve : (d.Process s.routing_ request RoutingResponse.fresh).1 = true) :
    ∃ published : RoutingResponse T H B,
      (Proc d request now true s).ret = true ∧
      writesOn Channel.response (Proc d request now true s).trace = [published] ∧
      writesOn Channel.history (Proc d request now true s).trace = [] ∧
      stores (Proc d request now true s).trace = [published] ∧
      (Proc d request now true s).state.response_ = some published ∧
      published = FillHeader d.Name now (d.Process s.routing_ request RoutingResponse.fresh).2.1 := by
  rcases hp : d.Process s.routing_ request RoutingResponse.fresh with ⟨ok, response, routing⟩
  rw [hp] at hsolve
  simp only at hsolve
  subst hsolve
  exact ⟨FillHeader d.Name now response, by simp [Proc, hp, writesOn, stores]⟩

/-- Witness for `C4_success` on request `7` with nothing cached before. -/
theorem C4_success_witness :
    ∃ published : RoutingResponse Nat Unit Nat,
      (Proc demoDeps 7 5 true demoInit).ret = true ∧
      writesOn Channel.response (Proc demoDeps 7 5 true demoInit).trace = [published] ∧
      writesOn Channel.history (Proc demoDeps 7 5 true demoInit).trace = [] ∧
      stores (Proc demoDeps 7 5 true demoInit).trace = [published] ∧
      (Proc demoDeps 7 5 true demoInit).state.response_ = some published ∧
      published = FillHeader demoDeps.Name 5
        (demoDeps.Process demoInit.routing_ 7 RoutingResponse.fresh).2.1 :=
  C4_success demoDeps 7 5 demoInit rfl

end ProcTheorems

/-! ## The periodic broadcaster: the timer callback -/

section TickTheorems

variable {R T H B : Type}

/-- Claim C2, as stated, fails: a tick at clock reading `2` on a slot holding
a response stamped `1` leaves a cached response stamped `2`, which is not the
cached response from before the tick. -/
theorem C2_tick_mutates_cache_counterexample :
    demoArmed.response_.isSome = true ∧
    (demoArmed.response_.map fun r => r.header.timestamp_sec) = some 1 ∧
    ((timerCallback true 2 true demoArmed).state.response_.map
      fun r => r.header.timestamp_sec) = some 2 ∧
    (timerCallback true 2 true demoArmed).state.response_ ≠ demoArmed.response_ := by
  decide

/-- Claim C2, amended: a tick that finds the slot non-empty re-stamps the retained
value in place.  The cached response after the tick is the cached response
from before the tick with its header time stamp replaced by the clock reading
of the tick, and that same re-stamped value is the one message handed to the
keep-alive writer; the cached response is unchanged exactly when it already
carried that clock reading. -/
theorem C2_tick_restamps_cache (now : T) (writeOk : Bool) (s : State R T H B)
    (cached : RoutingResponse T H B) (hslot : s.response_ = some cached) :
    (timerCallback true now writeOk s).state.response_
      = some (cached.set_timestamp_sec now) ∧
    writesOn Channel.history (timerCallback true now writeOk s).trace
      = [cached.set_timestamp_sec now] ∧
    ((timerCallback true now writeOk s).state.response_ = s.response_
      ↔ cached.header.timestamp_sec = now) := by
  refine ⟨by simp [timerCallback, hslot], by simp [timerCallback, hslot, writesOn], ?_⟩
  obtain ⟨⟨ts, name, hothers⟩, body⟩ := cached
  simp [timerCallback, hslot, RoutingResponse.set_timestamp_sec, eq_comm]

/-- Witness for `C2_tick_restamps_cache`: the armed component ticked at `2`. -/
theorem C2_tick_restamps_cache_witness :
    (timerCallback true 2 true demoArmed).state.response_
      = some (RoutingResponse.set_timestamp_sec
          { header := { timestamp_sec := 1, module_name := "routing", others := () },
            others := 7 } 2) ∧
    writesOn Channel.history (timerCallback true 2 true demoArmed).trace
      = [RoutingResponse.set_timestamp_sec
          { header := { timestamp_sec := 1, module_name := "routing", others := () },
            others := 7 } 2] ∧
    ((timerCallback true 2 true demoArmed).state.response_ = demoArmed.response_
      ↔ (1 : Nat) = 2) :=
  C2_tick_restamps_cache 2 true demoArmed
    { header := { timestamp_sec := 1, module_name := "routing", others := () }, others := 7 } rfl

/-- Claim C7: a tick that observes an empty slot hands nothing to the keep-alive
writer and nothing to the primary writer, does nothing beyond taking and
releasing the lock (the callback has no error result to report), and leaves
the component, hence the empty slot, as it was. -/
theorem C7_tick_on_empty_slot (alive : Bool) (now : T) (writeOk : Bool)
    (s : State R T H B) (hempty : s.response_ = none) :
    writesOn Channel.history (timerCallback alive now writeOk s).trace = [] ∧
    writesOn Channel.response (timerCallback alive now writeOk s).trace = [] ∧
    (∀ a ∈ (timerCallback alive now writeOk s).trace, a = Action.lock ∨ a = Action.unlock) ∧
    (timerCallback alive now writeOk s).state = s ∧
    (timerCallback alive now writeOk s).state.response_ = none := by
  cases alive <;> simp [timerCallback, hempty, writesOn]

/-- Witness for `C7_tick_on_empty_slot`: the freshly constructed component. -/
theorem C7_tick_on_empty_slot_witness :
    writesOn Channel.history (timerCallback true 2 true demoInit).trace = [] ∧
    writesOn Channel.response (timerCallback true 2 true demoInit).trace = [] ∧
    (∀ a ∈ (timerCallback true 2 true demoInit).trace, a = Action.lock ∨ a = Action.unlock) ∧
    (timerCallback true 2 true demoInit).state = demoInit ∧
    (timerCallback true 2 true demoInit).state.response_ = none :=
  C7_tick_on_empty_slot true 2 true demoInit rfl

/-- Claim C10: a tick that finds the slot non-empty at clock reading `now` hands
to the keep-alive writer exactly the cached response with its header time
stamp set to `now` and every other field unchanged; whether or not that
`Write` succeeds, the slot is not emptied and the cached response changes in
no field other than the header time stamp. -/
theorem C10_tick_frame (now : T) (writeOk : Bool) (s : State R T H B)
    (cached : RoutingResponse T H B) (hslot : s.response_ = some cached) :
    ∃ sent kept : RoutingResponse T H B,
      (timerCallback true now writeOk s).trace.filter (fun a => a.isCall)
        = [Action.write Channel.history sent writeOk] ∧
      sent.header.timestamp_sec = now ∧
      sent.header.module_name = cached.header.module_name ∧
      sent.header.others = cached.header.others ∧
      sent.others = cached.others ∧
      (timerCallback true now writeOk s).state.response_ = some kept ∧
      kept.header.module_name = cached.header.module_name ∧
      kept.header.others = cached.header.others ∧
      kept.others = cached.others ∧
      (timerCallback true now writeOk s).state.routing_ = s.routing_ := by
  refine ⟨cached.set_timestamp_sec now, cached.set_timestamp_sec now, ?_⟩
  simp [timerCallback, hslot, RoutingResponse.set_timestamp_sec, Action.isCall]

/-- Witness for `C10_tick_frame`: the armed component ticked at `2` with a failing
keep-alive `Write`. -/
theorem C10_tick_frame_witness :
    ∃ sent kept : RoutingResponse Nat Unit Nat,
      (timerCallback true 2 false demoArmed).trace.filter (fun a => a.isCall)
        = [Action.write Channel.history sent false] ∧
      sent.header.timestamp_sec = 2 ∧
      sent.header.module_name = "routing" ∧
      sent.header.others = () ∧
      sent.others = 7 ∧
      (timerCallback true 2 false demoArmed).state.response_ = some kept ∧
      kept.header.module_name = "routing" ∧
      kept.header.others = () ∧
      kept.others = 7 ∧
      (timerCallback true 2 false demoArmed).state.routing_ = demoArmed.routing_ :=
  C10_tick_frame 2 false demoArmed
    { header := { timestamp_sec := 1, module_name := "routing", others := () }, others := 7 } rfl

end TickTheorems

/-! ## Where the lock is held -/

section LockTheorems

variable {Q R T H B : Type} [Inhabited T] [Inhabited H] [Inhabited B]

/-- Claim C8, as stated, fails for the tick: on a non-empty slot the `Write` on the
keep-alive channel is issued after `mutex_` was taken and before it is
released. -/
theorem C8_tick_writes_under_lock_counterexample :
    (timerCallback true 2 true demoArmed).trace
      = [Action.lock, Action.clock 2, Action.restamp 2,
         Action.write Channel.history
           { header := { timestamp_sec := 2, module_name := "routing", others := () },
             others := 7 } true,
         Action.unlock] ∧
    ¬ NoCallUnderLock (timerCallback true 2 true demoArmed).trace := by
  refine ⟨by decide, fun h => ?_⟩
  have hheld := h [Action.lock, Action.clock 2, Action.restamp 2]
    (Action.write Channel.history
      { header := { timestamp_sec := 2, module_name := "routing", others := () },
        others := 7 } true)
    [Action.unlock] (by decide) rfl
  simp [heldAfter] at hheld

/-- Claim C8, amended.  In every execution of `Proc` the solver call and the `Write`
on the primary channel happen while the execution does not hold `mutex_`,
every write to the slot happens while it is held, and the lock is released
when `Proc` returns; when the solver succeeds the lock is taken exactly once
and the one thing done under it is the replacement of the cached response by
the published response; when the solver fails the lock is never taken.  A
tick never calls the solver.  A tick on a live component takes `mutex_` as
its first action, whatever the slot holds, and releases it as its last: on
a non-empty slot the clock reading, the re-stamping of the cached response
and the `Write` on the keep-alive channel are all done under the lock; on
an empty slot nothing is done under it. -/
theorem C8_lock_scope (d : Deps Q R T H B) (request : Q) (now : T) (writeOk : Bool)
    (s : State R T H B) :
    (NoCallUnderLock (Proc d request now writeOk s).trace ∧
      SlotAccessUnderLock (Proc d request now writeOk s).trace ∧
      heldAfter false (Proc d request now writeOk s).trace = false) ∧
    (∀ response routing,
      d.Process s.routing_ request RoutingResponse.fresh = (true, response, routing) →
        lockedSections (Proc d request now writeOk s).trace
            = [[Action.store (FillHeader d.Name now response)]] ∧
        stores (Proc d request now writeOk s).trace = [FillHeader d.Name now response] ∧
        writesOn Channel.response (Proc d request now writeOk s).trace
            = [FillHeader d.Name now response]) ∧
    ((d.Process s.routing_ request RoutingResponse.fresh).1 = false →
        lockedSections (Proc d request now writeOk s).trace = []) ∧
    (∀ alive, Action.solve ∉ (timerCallback alive now writeOk s).trace) ∧
    (∃ body, (timerCallback true now writeOk s).trace = Action.lock :: (body ++ [Action.unlock]) ∧
        lockedSections (timerCallback true now writeOk s).trace = [body]) ∧
    (SlotAccessUnderLock (timerCallback true now writeOk s).trace ∧
      heldAfter false (timerCallback true now writeOk s).trace = false) ∧
    (∀ cached, s.response_ = some cached →
      lockedSections (timerCallback true now writeOk s).trace
        = [[Action.clock now, Action.restamp now,
            Action.write Channel.history (cached.set_timestamp_sec now) writeOk]]) ∧
    (s.response_ = none →
      lockedSections (timerCallback true now writeOk s).trace = [[]] ∧
      ∀ alive, NoCallUnderLock (timerCallback alive now writeOk s).trace) := by
  refine ⟨⟨?_, ?_, ?_⟩, ?_, ?_, ?_, ?_, ⟨?_, ?_⟩, ?_, ?_⟩
  · apply noCallUnderLock_of_scan
    rcases hp : d.Process s.routing_ request RoutingResponse.fresh with ⟨ok, response, routing⟩
    cases ok <;> simp [Proc, hp, scanCalls, Action.isCall]
  · apply slotAccessUnderLock_of_scan
    rcases hp : d.Process s.routing_ request RoutingResponse.fresh with ⟨ok, response, routing⟩
    cases ok <;> simp [Proc, hp, scanAccess, Action.isSlotAccess]
  · rcases hp : d.Process s.routing_ request RoutingResponse.fresh with ⟨ok, response, routing⟩
    cases ok <;> simp [Proc, hp, heldAfter]
  · intro response routing hp
    simp [Proc, hp, lockedSections, sectionsFrom, stores, writesOn]
  · intro hfail
    rcases hp : d.Process s.routing_ request RoutingResponse.fresh with ⟨ok, response, routing⟩
    rw [hp] at hfail
    simp only at hfail
    subst hfail
    simp [Proc, hp, lockedSections, sectionsFrom]
  · intro alive
    cases alive <;> cases hs : s.response_ <;> simp [timerCallback, hs]
  · cases hs : s.response_ with
    | none => exact ⟨[], by simp [timerCallback, hs, lockedSections, sectionsFrom]⟩
    | some cached =>
        exact ⟨[Action.clock now, Action.restamp now,
                Action.write Channel.history (cached.set_timestamp_sec now) writeOk],
              by simp [timerCallback, hs, lockedSections, sectionsFrom]⟩
  · apply slotAccessUnderLock_of_scan
    cases hs : s.response_ <;> simp [timerCallback, hs, scanAccess, Action.isSlotAccess]
  · cases hs : s.response_ <;> simp [timerCallback, hs, heldAfter]
  · intro cached hslot
    simp [timerCallback, hslot, lockedSections, sectionsFrom]
  · intro hempty
    refine ⟨by simp [timerCallback, hempty, lockedSections, sectionsFrom], fun alive => ?_⟩
    apply noCallUnderLock_of_scan
    cases alive <;> simp [timerCallback, hempty, scanCalls]

/-- Witness for `C8_lock_scope`: request `7` and a tick on the armed component. -/
theorem C8_lock_scope_witness :
    (NoCallUnderLock (Proc demoDeps 7 5 true demoArmed).trace ∧
      SlotAccessUnderLock (Proc demoDeps 7 5 true demoArmed).trace ∧
      heldAfter false (Proc demoDeps 7 5 true demoArmed).trace = false) ∧
    (∀ response routing,
      demoDeps.Process demoArmed.routing_ 7 RoutingResponse.fresh = (true, response, routing) →
        lockedSections (Proc demoDeps 7 5 true demoArmed).trace
            = [[Action.store (FillHeader demoDeps.Name 5 response)]] ∧
        stores (Proc demoDeps 7 5 true demoArmed).trace = [FillHeader demoDeps.Name 5 response] ∧
        writesOn Channel.response (Proc demoDeps 7 5 true demoArmed).trace
            = [FillHeader demoDeps.Name 5 response]) ∧
    ((demoDeps.Process demoArmed.routing_ 7 RoutingResponse.fresh).1 = false →
        lockedSections (Proc demoDeps 7 5 true demoArmed).trace = []) ∧
    (∀ alive, Action.solve ∉ (timerCallback alive 5 true demoArmed).trace) ∧
    (∃ body, (timerCallback true 5 true demoArmed).trace
          = Action.lock :: (body ++ [Action.unlock]) ∧
        lockedSections (timerCallback true 5 true demoArmed).trace = [body]) ∧
    (SlotAccessUnderLock (timerCallback true 5 true demoArmed).trace ∧
      heldAfter false (timerCallback true 5 true demoArmed).trace = false) ∧
    (∀ cached, demoArmed.response_ = some cached →
      lockedSections (timerCallback true 5 true demoArmed).trace
        = [[Action.clock 5, Action.restamp 5,
            Action.write Channel.history (cached.set_timestamp_sec 5) true]]) ∧
    (demoArmed.response_ = none →
      lockedSections (timerCallback true 5 true demoArmed).trace = [[]] ∧
      ∀ alive, NoCallUnderLock (timerCallback alive 5 true demoArmed).trace) :=
  C8_lock_scope demoDeps 7 5 true demoArmed

end LockTheorems

/-! ## Sequences of requests and ticks -/

section StampLemmas

variable {T H B : Type}

theorem set_timestamp_sec_twice (msg : RoutingResponse T H B) (t u : T) :
    (msg.set_timestamp_sec t).set_timestamp_sec u = msg.set_timestamp_sec u := rfl

theorem set_timestamp_sec_own (msg : RoutingResponse T H B) :
    msg.set_timestamp_sec msg.header.timestamp_sec = msg := rfl

theorem stores_append (xs ys : List (Action T H B)) :
    stores (xs ++ ys) = stores xs ++ stores ys := by
  induction xs with
  | nil => rfl
  | cons a rest ih => cases a <;> simp [stores, ih]

end StampLemmas

section RunTheorems

variable {Q R T H B : Type} [Inhabited T] [Inhabited H] [Inhabited B]

/-- Along a run the slot follows `latestProcessed` up to the header time stamp. -/
theorem run_slot_tracks_latest (d : Deps Q R T H B) (calls : List (Call Q T)) :
    ∀ (s : State R T H B) (acc : Option (RoutingResponse T H B)),
      (∀ a, acc = some a → ∃ t, s.response_ = some (a.set_timestamp_sec t)) →
      ∀ latest, latestProcessed d s.routing_ acc calls = some latest →
        ∃ t, (run d s calls).state.response_ = some (latest.set_timestamp_sec t) := by
  induction calls with
  | nil =>
      intro s acc hacc latest hl
      exact hacc latest (by simpa [latestProcessed] using hl)
  | cons c rest ih =>
      intro s acc hacc latest hl
      cases c with
      | tick alive now writeOk =>
          simp only [latestProcessed] at hl
          simp only [run, step]
          refine ih (timerCallback alive now writeOk s).state acc ?_ latest ?_
          · intro a ha
            obtain ⟨t, ht⟩ := hacc a ha
            cases alive
            · exact ⟨t, by simp [timerCallback, ht]⟩
            · exact ⟨now, by simp [timerCallback, ht, set_timestamp_sec_twice]⟩
          · have hr : (timerCallback alive now writeOk s).state.routing_ = s.routing_ := by
              cases alive <;> cases hs : s.response_ <;> simp [timerCallback, hs]
            rw [hr]; exact hl
      | proc request now writeOk =>
          rcases hp : d.Process s.routing_ request RoutingResponse.fresh with ⟨ok, response, routing⟩
          cases ok
          · simp only [latestProcessed, hp] at hl
            simp only [run, step]
            refine ih (Proc d request now writeOk s).state acc ?_ latest ?_
            · intro a ha
              obtain ⟨t, ht⟩ := hacc a ha
              exact ⟨t, by simp [Proc, hp, ht]⟩
            · simpa [Proc, hp] using hl
          · simp only [latestProcessed, hp] at hl
            simp only [run, step]
            refine ih (Proc d request now writeOk s).state
              (some (FillHeader d.Name now response)) ?_ latest ?_
            · intro a ha
              cases ha
              exact ⟨now, by simp [Proc, hp]; rfl⟩
            · simpa [Proc, hp] using hl

/-- Claim C5 (last write wins, as the broadcaster sees it): after any sequence of
`Proc` calls and ticks run one after another in which some `Proc` succeeded,
a tick hands exactly one message to the keep-alive writer, and that message
is the response of the most recent successful `Proc` of the sequence,
carrying the clock reading of the tick as its header time stamp. -/
theorem C5_last_write_wins (d : Deps Q R T H B) (s0 : State R T H B)
    (calls : List (Call Q T)) (now : T) (writeOk : Bool) (latest : RoutingResponse T H B)
    (hlatest : latestProcessed d s0.routing_ none calls = some latest) :
    (timerCallback true now writeOk (run d s0 calls).state).trace.filter (fun a => a.isCall)
      = [Action.write Channel.history (latest.set_timestamp_sec now) writeOk] ∧
    writesOn Channel.history (timerCallback true now writeOk (run d s0 calls).state).trace
      = [latest.set_timestamp_sec now] := by
  obtain ⟨t, ht⟩ := run_slot_tracks_latest d calls s0 none (by simp) latest hlatest
  simp [timerCallback, ht, Action.isCall, writesOn, set_timestamp_sec_twice]

/-- Witness for `C5_last_write_wins`, the scenario of the claim: request `7` then a
tick at `2` republishes the response to `7`; request `8` then a tick at `4`
republishes the response to `8`; a further tick at `5` republishes it again. -/
theorem C5_last_write_wins_witness :
    writesOn Channel.history
        (timerCallback true 2 true (run demoDeps demoInit [Call.proc 7 1 true]).state).trace
      = [{ header := { timestamp_sec := 2, module_name := "routing", others := () },
           others := 7 }] ∧
    writesOn Channel.history
        (timerCallback true 4 true
          (run demoDeps demoInit
            [Call.proc 7 1 true, Call.tick true 2 true, Call.proc 8 3 true]).state).trace
      = [{ header := { timestamp_sec := 4, module_name := "routing", others := () },
           others := 8 }] ∧
    writesOn Channel.history
        (timerCallback true 5 true
          (run demoDeps demoInit
            [Call.proc 7 1 true, Call.tick true 2 true, Call.proc 8 3 true,
             Call.tick true 4 true]).state).trace
      = [{ header := { timestamp_sec := 5, module_name := "routing", others := () },
           others := 8 }] :=
  ⟨(C5_last_write_wins demoDeps demoInit [Call.proc 7 1 true] 2 true
      { header := { timestamp_sec := 1, module_name := "routing", others := () },
        others := 7 } rfl).2,
   (C5_last_write_wins demoDeps demoInit
      [Call.proc 7 1 true, Call.tick true 2 true, Call.proc 8 3 true] 4 true
      { header := { timestamp_sec := 3, module_name := "routing", others := () },
        others := 8 } rfl).2,
   (C5_last_write_wins demoDeps demoInit
      [Call.proc 7 1 true, Call.tick true 2 true, Call.proc 8 3 true, Call.tick true 4 true]
      5 true
      { header := { timestamp_sec := 3, module_name := "routing", others := () },
        others := 8 } rfl).2⟩

end RunTheorems

/-! ## Overlapping calls -/

section ConcurrentTheorems

variable {Q R T H B : Type} [Inhabited T] [Inhabited H] [Inhabited B]

/-- The two parts `procBeforeLock` and `procLocked`, one after the other, are
`Proc`. -/
theorem Proc_eq_parts (d : Deps Q R T H B) (request : Q) (now : T) (writeOk : Bool)
    (s : State R T H B) :
    Proc d request now writeOk s =
      match procBeforeLock d request now writeOk s.routing_ with
      | (routing, none, effects) =>
          { ret := false, state := { s with routing_ := routing }, trace := effects }
      | (routing, some response, effects) =>
          { ret := true
            state := (procLocked response { s with routing_ := routing }).state
            trace := effects ++ (procLocked response { s with routing_ := routing }).trace } := by
  rcases hp : d.Process s.routing_ request RoutingResponse.fresh with ⟨ok, response, routing⟩
  cases ok <;> simp [Proc, procBeforeLock, procLocked, hp]

/-- Calls carried out one after another are one of the interleavings. -/
theorem run_is_interleaving (d : Deps Q R T H B) (calls : List (Call Q T)) :
    ∀ (s : State R T H B) (past : List (Action T H B)),
      interleave d { comp := s, waiting := [], trace := past } (calls.flatMap Call.moves)
        = { comp := (run d s calls).state, waiting := [],
            trace := past ++ (run d s calls).trace } := by
  induction calls with
  | nil => intro s past; simp [interleave, run]
  | cons c rest ih =>
      intro s past
      have hstep : interleave d { comp := s, waiting := [], trace := past } c.moves
          = { comp := (step d s c).state, waiting := [],
              trace := past ++ (step d s c).trace } := by
        cases c with
        | tick alive now writeOk => simp [interleave, Call.moves, move, step]
        | proc request now writeOk =>
            rcases hp : d.Process s.routing_ request RoutingResponse.fresh with
              ⟨ok, response, routing⟩
            cases ok <;>
              simp [interleave, Call.moves, move, step, Proc, procBeforeLock, procLocked, hp]
      have happ : interleave d { comp := s, waiting := [], trace := past }
          ((c :: rest).flatMap Call.moves)
          = interleave d (interleave d { comp := s, waiting := [], trace := past } c.moves)
              (rest.flatMap Call.moves) := by
        simp [interleave, List.foldl_append]
      rw [happ, hstep, ih]
      simp [run, List.append_assoc]

/-- What every move keeps true: the slot is empty and nothing was stored yet, or
the slot holds the argument of the last completed store up to its header
time stamp. -/
theorem move_keeps_last_store (d : Deps Q R T H B) (c : Config R T H B) (mv : Move Q T)
    (hinv : (c.comp.response_ = none ∧ stores c.trace = []) ∨
      ∃ m t, (stores c.trace).getLast? = some m ∧
        c.comp.response_ = some (m.set_timestamp_sec t)) :
    ((move d c mv).comp.response_ = none ∧ stores (move d c mv).trace = []) ∨
      ∃ m t, (stores (move d c mv).trace).getLast? = some m ∧
        (move d c mv).comp.response_ = some (m.set_timestamp_sec t) := by
  cases mv with
  | enter request now writeOk =>
      rcases hp : d.Process c.comp.routing_ request RoutingResponse.fresh with
        ⟨ok, response, routing⟩
      cases ok <;> simpa [move, procBeforeLock, hp, stores_append, stores] using hinv
  | commit i =>
      cases hw : c.waiting[i]? with
      | none => simpa [move, hw] using hinv
      | some response =>
          right
          exact ⟨response, response.header.timestamp_sec,
            by simp [move, hw, procLocked, stores_append, stores],
            by simp [move, hw, procLocked, set_timestamp_sec_own]⟩
  | tick alive now writeOk =>
      cases alive
      · simpa [move, timerCallback] using hinv
      · rcases hinv with ⟨hnone, hst⟩ | ⟨m, t, hlast, hslot⟩
        · left
          simp [move, timerCallback, hnone, stores_append, stores, hst]
        · right
          exact ⟨m, now,
            by simpa [move, timerCallback, hslot, stores_append, stores] using hlast,
            by simp [move, timerCallback, hslot, set_timestamp_sec_twice]⟩

theorem interleave_keeps_last_store (d : Deps Q R T H B) (moves : List (Move Q T)) :
    ∀ c : Config R T H B,
      ((c.comp.response_ = none ∧ stores c.trace = []) ∨
        ∃ m t, (stores c.trace).getLast? = some m ∧
          c.comp.response_ = some (m.set_timestamp_sec t)) →
      (((interleave d c moves).comp.response_ = none ∧ stores (interleave d c moves).trace = []) ∨
        ∃ m t, (stores (interleave d c moves).trace).getLast? = some m ∧
          (interleave d c moves).comp.response_ = some (m.set_timestamp_sec t)) := by
  induction moves with
  | nil => intro c h; simpa [interleave] using h
  | cons mv rest ih =>
      intro c h
      have := ih (move d c mv) (move_keeps_last_store d c mv h)
      simpa [interleave] using this

/-- Claim C9, as stated, fails already when the calls do not overlap: after request
`7` is stored with stamp `1` and a tick at `2` has run, the value the next
tick reads from the slot carries stamp `2` and is not the argument of any
completed slot write (the only one carries stamp `1`); what that next tick,
at `3`, publishes on the keep-alive channel is not such an argument either. -/
theorem C9_tick_reads_restamped_value_counterexample :
    (run demoDeps demoInit [Call.proc 7 1 true, Call.tick true 2 true]).state.response_
      = some { header := { timestamp_sec := 2, module_name := "routing", others := () },
               others := 7 } ∧
    stores (run demoDeps demoInit [Call.proc 7 1 true, Call.tick true 2 true]).trace
      = [{ header := { timestamp_sec := 1, module_name := "routing", others := () },
           others := 7 }] ∧
    writesOn Channel.history
        (timerCallback true 3 true
          (run demoDeps demoInit [Call.proc 7 1 true, Call.tick true 2 true]).state).trace
      = [{ header := { timestamp_sec := 3, module_name := "routing", others := () },
           others := 7 }] ∧
    ¬ (∀ cached,
        (run demoDeps demoInit [Call.proc 7 1 true, Call.tick true 2 true]).state.response_
          = some cached →
        cached ∈ stores
          (run demoDeps demoInit [Call.proc 7 1 true, Call.tick true 2 true]).trace) ∧
    ¬ (∀ sent ∈ writesOn Channel.history
          (timerCallback true 3 true
            (run demoDeps demoInit [Call.proc 7 1 true, Call.tick true 2 true]).state).trace,
        sent ∈ stores
          (run demoDeps demoInit [Call.proc 7 1 true, Call.tick true 2 true]).trace) := by
  refine ⟨by decide, by decide, by decide, fun h => ?_, fun h => ?_⟩
  · exact absurd
      (h { header := { timestamp_sec := 2, module_name := "routing", others := () },
           others := 7 } (by decide)) (by decide)
  · exact absurd
      (h { header := { timestamp_sec := 3, module_name := "routing", others := () },
           others := 7 } (by decide)) (by decide)

/-- Claim C9, amended: start from a component with an empty slot and let calls of
`Proc` and ticks overlap in any way, their `lock_guard` blocks running one at
a time in any order.  At every point of the run the slot is either empty, and
then no slot write has completed and a tick publishes nothing, or it holds
the argument of the most recent completed slot write in every field other
than the header time stamp (which an earlier tick may have overwritten in
place), and a tick publishes on the keep-alive channel exactly that argument
with the header time stamp set to the clock reading of the tick. -/
theorem C9_tick_reads_last_store_up_to_stamp (d : Deps Q R T H B) (s0 : State R T H B)
    (hinit : s0.response_ = none) (moves : List (Move Q T)) (now : T) (writeOk : Bool) :
    ((interleave d { comp := s0, waiting := [], trace := [] } moves).comp.response_ = none ∧
      stores (interleave d { comp := s0, waiting := [], trace := [] } moves).trace = [] ∧
      writesOn Channel.history
        (timerCallback true now writeOk
          (interleave d { comp := s0, waiting := [], trace := [] } moves).comp).trace = []) ∨
    ∃ m t,
      (stores (interleave d { comp := s0, waiting := [], trace := [] } moves).trace).getLast?
        = some m ∧
      (interleave d { comp := s0, waiting := [], trace := [] } moves).comp.response_
        = some (m.set_timestamp_sec t) ∧
      writesOn Channel.history
        (timerCallback true now writeOk
          (interleave d { comp := s0, waiting := [], trace := [] } moves).comp).trace
        = [m.set_timestamp_sec now] := by
  rcases interleave_keeps_last_store d moves { comp := s0, waiting := [], trace := [] }
      (Or.inl ⟨hinit, rfl⟩) with ⟨hnone, hst⟩ | ⟨m, t, hlast, hslot⟩
  · exact Or.inl ⟨hnone, hst, by simp [timerCallback, hnone, writesOn]⟩
  · exact Or.inr ⟨m, t, hlast, hslot,
      by simp [timerCallback, hslot, writesOn, set_timestamp_sec_twice]⟩

/-- Witness for `C9_tick_reads_last_store_up_to_stamp`: requests `7` and `8` are in
flight together, `8` is stored first, `7` last, with ticks in between; the
tick at `7` republishes the response to `7`. -/
theorem C9_tick_reads_last_store_up_to_stamp_witness :
    ((interleave demoDeps { comp := demoInit, waiting := [], trace := [] }
        [Move.enter 7 1 true, Move.enter 8 2 true, Move.tick true 3 true, Move.commit 1,
         Move.tick true 4 true, Move.commit 0, Move.tick true 5 true]).comp.response_ = none ∧
      stores (interleave demoDeps { comp := demoInit, waiting := [], trace := [] }
        [Move.enter 7 1 true, Move.enter 8 2 true, Move.tick true 3 true, Move.commit 1,
         Move.tick true 4 true, Move.commit 0, Move.tick true 5 true]).trace = [] ∧
      writesOn Channel.history
        (timerCallback true 7 true
          (interleave demoDeps { comp := demoInit, waiting := [], trace := [] }
            [Move.enter 7 1 true, Move.enter 8 2 true, Move.tick true 3 true, Move.commit 1,
             Move.tick true 4 true, Move.commit 0, Move.tick true 5 true]).comp).trace = []) ∨
    ∃ m t,
      (stores (interleave demoDeps { comp := demoInit, waiting := [], trace := [] }
        [Move.enter 7 1 true, Move.enter 8 2 true, Move.tick true 3 true, Move.commit 1,
         Move.tick true 4 true, Move.commit 0, Move.tick true 5 true]).trace).getLast?
        = some m ∧
      (interleave demoDeps { comp := demoInit, waiting := [], trace := [] }
        [Move.enter 7 1 true, Move.enter 8 2 true, Move.tick true 3 true, Move.commit 1,
         Move.tick true 4 true, Move.commit 0, Move.tick true 5 true]).comp.response_
        = some (m.set_timestamp_sec t) ∧
      writesOn Channel.history
        (timerCallback true 7 true
          (interleave demoDeps { comp := demoInit, waiting := [], trace := [] }
            [Move.enter 7 1 true, Move.enter 8 2 true, Move.tick true 3 true, Move.commit 1,
             Move.tick true 4 true, Move.commit 0, Move.tick true 5 true]).comp).trace
        = [m.set_timestamp_sec 7] :=
  C9_tick_reads_last_store_up_to_stamp demoDeps demoInit rfl
    [Move.enter 7 1 true, Move.enter 8 2 true, Move.tick true 3 true, Move.commit 1,
     Move.tick true 4 true, Move.commit 0, Move.tick true 5 true] 7 true

end ConcurrentTheorems

end RoutingComponent
